import Mathlib

/-!
Shallow embedding of the multipart upload client (`src/example/upload.py`).

The remote worker and the local filesystem are modelled as explicit
environments; every remote call the client issues is recorded as an `Event`
in a trace.  Exceptions are modelled with an explicit `Exc` error channel:
`UploadError` instances, Python `KeyError` (string-keyed dict lookups on the
loosely typed worker responses) and `ZeroDivisionError` (the progress
computation).  The `try/except` structure of `upload_file` is reproduced by
`upload_core` (body of the outer `try`), `upload_inner` (body of the inner,
abort-protected `try`) and the final wrap in `upload_file`.
-/

/-- Fixed chunk size shared with the worker: 5 MiB. -/
def CHUNK_SIZE : Nat := 5 * 1024 * 1024

/-- Exceptions the client code can raise.  `uploadError` is the custom
`UploadError`; `keyError` models a Python `KeyError` on a missing dict key;
`zeroDivisionError` models `ZeroDivisionError`. -/
inductive Exc where
  | uploadError (msg : String)
  | keyError (key : String)
  | zeroDivisionError
deriving DecidableEq

/-- Python `str(e)` for each modelled exception (`str` of a `KeyError`
is the repr of the key, i.e. quoted). -/
def Exc.str : Exc → String
  | .uploadError m => m
  | .keyError k => "'" ++ k ++ "'"
  | .zeroDivisionError => "division by zero"

/-- Whether an exception is an `UploadError`. -/
def Exc.isUploadError : Exc → Bool
  | .uploadError _ => true
  | _ => false

/-- Claims payload of the backend JWT built by the client. -/
structure JwtPayload where
  type : String
  action : String
  iat : Nat
  exp : Nat
deriving DecidableEq

/-- Bearer tokens attached to requests: a backend JWT (payload, signing
secret, algorithm) or the opaque per-session client token. -/
inductive Token where
  | backend (payload : JwtPayload) (secret : String) (alg : String)
  | client (value : String)
deriving DecidableEq

/-- One recorded `{partNumber, etag}` pair appended to `parts`. -/
structure PartPair where
  partNumber : Nat
  etag : String
deriving DecidableEq

/-- A remote call issued by the client, as observable at the worker. -/
inductive Event where
  | create (id : String) (fileSize : Nat) (mimeType : String) (token : Token)
  | putPart (partNumber : Nat) (isLast : Bool) (bytes : List Nat) (token : Token)
  | complete (uploadId : String) (fileId : String) (parts : List PartPair) (token : Token)
  | abort (uploadId : String) (fileId : String) (token : Token)
deriving DecidableEq

/-- Worker response to `POST /upload/create`; optional fields model the
loosely typed JSON dict (a `none` field is a missing key). -/
structure CreateResp where
  success : Bool
  error : Option String
  uploadId : Option String
  clientToken : Option String
  totalParts : Option Nat
deriving DecidableEq

/-- Worker response to `PUT /upload/part/n`. -/
structure PartResp where
  success : Bool
  error : Option String
  partNumber : Option Nat
  etag : Option String
  uploadedBytes : Option Int
  totalBytes : Option Int
deriving DecidableEq

/-- Worker response to `POST /upload/complete`. -/
structure CompleteResp where
  success : Bool
  error : Option String
  etag : Option String
  size : Option Nat
deriving DecidableEq

/-- Result of one HTTP request: a parsed response, or a transport/status
failure (a `requests` exception, turned by `_make_request` into an
`UploadError` with prefix "Request failed: "). -/
inductive HttpResult (α : Type) where
  | ok (response : α)
  | fail (msg : String)
deriving DecidableEq

/-- The remote worker as an oracle: the response it would give to each
request the client can issue (`partResp` indexed by requested part number). -/
structure Env where
  createResp : HttpResult CreateResp
  partResp : Nat → HttpResult PartResp
  completeResp : HttpResult CompleteResp
  abortResp : HttpResult Unit

/-- Client configuration (`worker_url` already right-stripped of "/",
the shared JWT secret) together with the current clock reading used
when minting tokens. -/
structure Config where
  base_url : String
  jwt_secret : String
  now : Nat

/-- The local filesystem's view of the source file: whether the path
resolves, the size `os.path.getsize` reports, the bytes actually readable,
and the `mimetypes.guess_type` result. -/
structure FileSys where
  fileExists : Bool
  size : Nat
  content : List Nat
  mimeGuess : Option String

/-- Model of `jwt.encode(payload, secret, algorithm)`. -/
def jwt_encode (payload : JwtPayload) (secret : String) (alg : String) : Token :=
  Token.backend payload secret alg

/-- `_generate_backend_jwt`: payload with type "backend", the action, iat
set to the current time and exp one hour later, signed HS256. -/
def generate_backend_jwt (cfg : Config) (action : String) : Token :=
  jwt_encode
    { type := "backend", action := action, iat := cfg.now, exp := cfg.now + 3600 }
    cfg.jwt_secret "HS256"

/-- A Python dict lookup `data[key]` on an optional field: `KeyError` when
the key is absent. -/
def dictGet {α : Type} (v : Option α) (key : String) : Except Exc α :=
  match v with
  | some a => Except.ok a
  | none => Except.error (Exc.keyError key)

/-- `_get_file_info`: `UploadError` when the path does not exist, else the
reported size and the guessed MIME type defaulted to octet-stream. -/
def get_file_info (fs : FileSys) (file_path : String) : Except Exc (Nat × String) :=
  if fs.fileExists then
    Except.ok (fs.size, fs.mimeGuess.getD "application/octet-stream")
  else
    Except.error (Exc.uploadError ("File not found: " ++ file_path))

/-- `create_upload`: issues the create request with a backend "create"
token; raises `UploadError` on transport failure or `success:false`; the
success-path prints force dict lookups of `uploadId` and `totalParts`. -/
def create_upload (cfg : Config) (env : Env) (file_id : String) (file_size : Nat)
    (mime_type : String) : List Event × Except Exc CreateResp :=
  let token := generate_backend_jwt cfg "create"
  let ev := Event.create file_id file_size mime_type token
  ([ev],
    match env.createResp with
    | .fail m => Except.error (Exc.uploadError ("Request failed: " ++ m))
    | .ok data =>
      if data.success = false then
        Except.error (Exc.uploadError
          ("Failed to create upload: " ++ data.error.getD "Unknown error"))
      else
        match dictGet data.uploadId "uploadId" with
        | .error e => Except.error e
        | .ok _ =>
          match dictGet data.totalParts "totalParts" with
          | .error e => Except.error e
          | .ok _ => Except.ok data)

/-- Handling of one part request's response inside the loop body of
`upload_file_parts`: `UploadError` on transport failure or on
`success:false` (with the worker message defaulted to "None"); then the
dict lookups for `parts.append` (`partNumber`, `etag`) and for the
progress expression (`uploadedBytes`, `totalBytes`), each of which can
raise `KeyError`; then the progress division, which raises
`ZeroDivisionError` when `totalBytes` is 0; finally the recorded pair. -/
def partOutcome (env : Env) (pn : Nat) : Except Exc PartPair :=
  match env.partResp pn with
  | .fail m => Except.error (Exc.uploadError ("Request failed: " ++ m))
  | .ok pd =>
    if pd.success = false then
      Except.error (Exc.uploadError
        ("Failed to upload part " ++ toString pn ++ ": " ++ pd.error.getD "None"))
    else
      match dictGet pd.partNumber "partNumber" with
      | .error e => Except.error e
      | .ok rpn =>
        match dictGet pd.etag "etag" with
        | .error e => Except.error e
        | .ok retag =>
          match dictGet pd.uploadedBytes "uploadedBytes" with
          | .error e => Except.error e
          | .ok _ =>
            match dictGet pd.totalBytes "totalBytes" with
            | .error e => Except.error e
            | .ok tb =>
              if tb = 0 then Except.error Exc.zeroDivisionError
              else Except.ok { partNumber := rpn, etag := retag }

/-- The `for part_number in range(1, total_parts + 1)` loop of
`upload_file_parts`, recursing on the number of remaining iterations.
Each iteration reads a chunk (breaking on an empty read), issues the put
request with the client token and `isLast` on the final part number, and
handles the response via `partOutcome`, accumulating the recorded pairs. -/
def uploadPartsLoop (env : Env) (client_token : String) (total_parts : Nat) :
    Nat → Nat → List Nat → List PartPair → List Event × Except Exc (List PartPair)
  | _, 0, _, acc => ([], Except.ok acc.reverse)
  | pn, r + 1, c, acc =>
    let chunk := c.take CHUNK_SIZE
    if chunk.isEmpty then ([], Except.ok acc.reverse)
    else
      let ev := Event.putPart pn (pn == total_parts) chunk (Token.client client_token)
      match partOutcome env pn with
      | .error e => ([ev], Except.error e)
      | .ok pair =>
        let rest := uploadPartsLoop env client_token total_parts
          (pn + 1) r (c.drop CHUNK_SIZE) (pair :: acc)
        (ev :: rest.1, rest.2)

/-- `upload_file_parts`: looks up `totalParts` in the create response dict,
then runs the part loop over the file's readable bytes. -/
def upload_file_parts (env : Env) (fs : FileSys) (client_token : String)
    (upload_info : CreateResp) : List Event × Except Exc (List PartPair) :=
  match dictGet upload_info.totalParts "totalParts" with
  | .error e => ([], Except.error e)
  | .ok total_parts => uploadPartsLoop env client_token total_parts 1 total_parts fs.content []

/-- `complete_upload`: issues the complete request with a backend
"complete" token; raises on transport failure or `success:false`. -/
def complete_upload (cfg : Config) (env : Env) (upload_id file_id : String)
    (parts : List PartPair) : List Event × Except Exc CompleteResp :=
  let token := generate_backend_jwt cfg "complete"
  let ev := Event.complete upload_id file_id parts token
  ([ev],
    match env.completeResp with
    | .fail m => Except.error (Exc.uploadError ("Request failed: " ++ m))
    | .ok data =>
      if data.success = false then
        Except.error (Exc.uploadError
          ("Failed to complete upload: " ++ data.error.getD "None"))
      else Except.ok data)

/-- `abort_upload`: mints a fresh backend "abort" token, issues the abort
request, and catches every exception from it, downgrading a failure to a
printed warning.  It returns the issued events and the warnings; it has
no error channel because its `except Exception` handler swallows all. -/
def abort_upload (cfg : Config) (env : Env) (upload_id file_id : String) :
    List Event × List String :=
  let token := generate_backend_jwt cfg "abort"
  let ev := Event.abort upload_id file_id token
  ([ev],
    match env.abortResp with
    | .ok _ => []
    | .fail m => ["Warning: Failed to abort upload: Request failed: " ++ m])

/-- Body of the inner `try` of `upload_file`: upload all parts, complete,
then the success prints force dict lookups of the completion `etag` and
`size`; finally the file URL is produced. -/
def upload_inner (cfg : Config) (env : Env) (fs : FileSys)
    (resource_name client_token upload_id : String) (upload_info : CreateResp) :
    List Event × Except Exc String :=
  let pr := upload_file_parts env fs client_token upload_info
  match pr.2 with
  | .error e => (pr.1, Except.error e)
  | .ok parts =>
    let cr := complete_upload cfg env upload_id resource_name parts
    (pr.1 ++ cr.1,
      match cr.2 with
      | .error e => Except.error e
      | .ok cdata =>
        match dictGet cdata.etag "etag" with
        | .error e => Except.error e
        | .ok _ =>
          match dictGet cdata.size "size" with
          | .error e => Except.error e
          | .ok _ => Except.ok (cfg.base_url ++ "/file/" ++ resource_name))

/-- Body of the outer `try` of `upload_file`: file info, create, the
`clientToken` and `uploadId` dict lookups, then the inner abort-protected
block; on an inner failure the abort compensation runs and the original
exception is re-raised.  Returns (trace, warnings, result). -/
def upload_core (cfg : Config) (env : Env) (fs : FileSys)
    (file_path resource_name : String) :
    List Event × List String × Except Exc String :=
  match get_file_info fs file_path with
  | .error e => ([], [], Except.error e)
  | .ok info =>
    let cr := create_upload cfg env resource_name info.1 info.2
    match cr.2 with
    | .error e => (cr.1, [], Except.error e)
    | .ok data =>
      match dictGet data.clientToken "clientToken" with
      | .error e => (cr.1, [], Except.error e)
      | .ok client_token =>
        match dictGet data.uploadId "uploadId" with
        | .error e => (cr.1, [], Except.error e)
        | .ok upload_id =>
          let inner := upload_inner cfg env fs resource_name client_token upload_id data
          match inner.2 with
          | .ok url => (cr.1 ++ inner.1, [], Except.ok url)
          | .error e =>
            let ab := abort_upload cfg env upload_id resource_name
            (cr.1 ++ inner.1 ++ ab.1, ab.2, Except.error e)

/-- The outer `except` clauses of `upload_file`: an `UploadError` is
re-raised unchanged, any other exception is wrapped in an `UploadError`
with the "Unexpected error: " prefix. -/
def wrap_unexpected (e : Exc) : Exc :=
  match e with
  | .uploadError m => Exc.uploadError m
  | e => Exc.uploadError ("Unexpected error: " ++ e.str)

instance {ε α : Type} [DecidableEq ε] [DecidableEq α] : DecidableEq (Except ε α) := fun x y =>
  match x, y with
  | .ok a, .ok b =>
    if h : a = b then isTrue (by rw [h])
    else isFalse fun hc => h (by cases hc; rfl)
  | .ok _, .error _ => isFalse fun hc => Except.noConfusion hc
  | .error _, .ok _ => isFalse fun hc => Except.noConfusion hc
  | .error e, .error f =>
    if h : e = f then isTrue (by rw [h])
    else isFalse fun hc => h (by cases hc; rfl)

/-- Everything `upload_file` leaves observable: the issued remote calls in
order, the printed abort warnings, and the returned URL or raised error. -/
structure Outcome where
  trace : List Event
  warnings : List String
  result : Except Exc String
deriving DecidableEq

/-- `upload_file`: the outer try body plus its exception wrapping. -/
def upload_file (cfg : Config) (env : Env) (fs : FileSys)
    (file_path resource_name : String) : Outcome :=
  let core := upload_core cfg env fs file_path resource_name
  { trace := core.1
    warnings := core.2.1
    result :=
      match core.2.2 with
      | .ok url => Except.ok url
      | .error e => Except.error (wrap_unexpected e) }

/-- Whether an event is an abort request. -/
def Event.isAbort : Event → Bool
  | .abort _ _ _ => true
  | _ => false

/-- Whether an event is a part-upload request. -/
def Event.isPutPart : Event → Bool
  | .putPart _ _ _ _ => true
  | _ => false

/-- The abort requests contained in a trace. -/
def abortEvents (tr : List Event) : List Event :=
  tr.filter Event.isAbort

/-- The part-upload requests contained in a trace. -/
def putPartEvents (tr : List Event) : List Event :=
  tr.filter Event.isPutPart

/-- The `parts` arguments of the complete requests contained in a trace. -/
def completeParts (tr : List Event) : List (List PartPair) :=
  tr.filterMap fun ev =>
    match ev with
    | .complete _ _ parts _ => some parts
    | _ => none

/-- The observable descriptor of one part-upload request: requested part
number, the isLast flag, and how many bytes were sent. -/
structure PutDesc where
  partNumber : Nat
  isLast : Bool
  byteLen : Nat
deriving DecidableEq

/-- Descriptors of the part-upload requests of a trace, in order. -/
def putDescs (tr : List Event) : List PutDesc :=
  tr.filterMap fun ev =>
    match ev with
    | .putPart pn il bs _ => some ⟨pn, il, bs.length⟩
    | _ => none

/-- Ceiling division of a byte count into CHUNK_SIZE chunks: the number of
nonempty chunks a source of L readable bytes yields. -/
def numChunks (L : Nat) : Nat :=
  (L + CHUNK_SIZE - 1) / CHUNK_SIZE

/-- Expected put-part events for n consecutive parts starting at part
number pn, reading from remaining content c (closed form of the loop's
trace when every part succeeds). -/
def chunkEvents (client_token : String) (total_parts : Nat) :
    Nat → Nat → List Nat → List Event
  | _, 0, _ => []
  | pn, n + 1, c =>
    Event.putPart pn (pn == total_parts) (c.take CHUNK_SIZE) (Token.client client_token)
      :: chunkEvents client_token total_parts (pn + 1) n (c.drop CHUNK_SIZE)

/-- Expected chunk lengths: n chunks out of L remaining bytes. -/
def chunkLensN : Nat → Nat → List Nat
  | 0, _ => []
  | n + 1, L => min CHUNK_SIZE L :: chunkLensN n (L - CHUNK_SIZE)

/-- A part response that lets the loop proceed: worker-reported success,
all four fields of the response present, and a nonzero totalBytes. -/
def goodPart (pd : PartResp) : Prop :=
  pd.success = true ∧ pd.partNumber.isSome ∧ pd.etag.isSome ∧
    pd.uploadedBytes.isSome ∧ ∃ tb, pd.totalBytes = some tb ∧ tb ≠ 0

/-- A worker that answers every part request successfully. -/
def allGood (env : Env) : Prop :=
  ∀ pn, ∃ pd, env.partResp pn = HttpResult.ok pd ∧ goodPart pd

/-- A worker whose part responses echo the requested part number. -/
def echoesPartNumbers (env : Env) : Prop :=
  ∀ pn pd, env.partResp pn = HttpResult.ok pd → pd.partNumber = some pn

/-- The `parts` list covers every part number 1..T and is in strictly
ascending partNumber order. -/
def PartsCoverSorted (ps : List PartPair) (T : Nat) : Prop :=
  (∀ i, 1 ≤ i → i ≤ T → i ∈ ps.map PartPair.partNumber) ∧
    (ps.map PartPair.partNumber).Pairwise (fun a b => a < b)

/-- Phase-appropriate authorization for one event: create/complete/abort
requests carry the backend token freshly minted for exactly their own
action, and part-upload requests carry the client token returned by the
create call (hence never a backend token). -/
def PhaseTokensOK (cfg : Config) (env : Env) : Event → Prop := fun ev =>
  match ev with
  | .create _ _ _ tok => tok = generate_backend_jwt cfg "create"
  | .complete _ _ _ tok => tok = generate_backend_jwt cfg "complete"
  | .abort _ _ tok => tok = generate_backend_jwt cfg "abort"
  | .putPart _ _ _ tok =>
      ∃ data ct, env.createResp = HttpResult.ok data ∧
        data.clientToken = some ct ∧ tok = Token.client ct

/-! ### Concrete instances, used to exercise the model on closed runs -/

/-- A concrete configuration. -/
def cfgEx : Config := { base_url := "http://w", jwt_secret := "sec", now := 1000 }

/-- A fully well-formed successful part response echoing the requested
part number. -/
def goodPartResp (pn : Nat) : PartResp :=
  { success := true, error := none, partNumber := some pn, etag := some "e",
    uploadedBytes := some 1, totalBytes := some 10 }

/-- A fully well-formed successful completion response. -/
def okCompleteResp : CompleteResp :=
  { success := true, error := none, etag := some "E", size := some 1 }

/-- A successful create response carrying the given total part count. -/
def okCreateResp (tp : Nat) : CreateResp :=
  { success := true, error := none, uploadId := some "uid",
    clientToken := some "ctok", totalParts := some tp }

/-- A one-byte readable file. -/
def fsOne : FileSys := { fileExists := true, size := 1, content := [7], mimeGuess := none }

/-- Worker for the C1 witness: create succeeds, every part request
fails at transport level. -/
def envC1w : Env :=
  { createResp := .ok (okCreateResp 1), partResp := fun _ => .fail "boom",
    completeResp := .ok okCompleteResp, abortResp := .ok () }

/-- Worker for the C2 counterexample: create reports two total parts and
every request succeeds. -/
def envC2x : Env :=
  { createResp := .ok (okCreateResp 2), partResp := fun pn => .ok (goodPartResp pn),
    completeResp := .ok okCompleteResp, abortResp := .ok () }

/-- Source file for the C2 counterexample: the reported size calls for two
chunks but only one byte is readable. -/
def fsC2x : FileSys := { fileExists := true, size := 6000000, content := [7], mimeGuess := none }

/-- Worker for the C2 witness: create reports one total part and every
request succeeds. -/
def envC2w : Env :=
  { createResp := .ok (okCreateResp 1), partResp := fun pn => .ok (goodPartResp pn),
    completeResp := .ok okCompleteResp, abortResp := .ok () }

/-- Worker for the C3 witness: every part request succeeds. -/
def envC3w : Env :=
  { createResp := .ok (okCreateResp 1), partResp := fun pn => .ok (goodPartResp pn),
    completeResp := .ok okCompleteResp, abortResp := .ok () }

/-- A three-byte readable file. -/
def fsC3w : FileSys := { fileExists := true, size := 3, content := [1, 2, 3], mimeGuess := none }

/-- Worker for the C5 witness: the create request fails at transport level. -/
def envC5w : Env :=
  { createResp := .fail "down", partResp := fun pn => .ok (goodPartResp pn),
    completeResp := .ok okCompleteResp, abortResp := .ok () }

/-- Worker for the C6 witness: create succeeds, every part request fails,
and the abort request itself fails. -/
def envC6w : Env :=
  { createResp := .ok (okCreateResp 1), partResp := fun _ => .fail "boom",
    completeResp := .ok okCompleteResp, abortResp := .fail "abboom" }

/-- A create response reporting failure. -/
def failCreateResp : CreateResp :=
  { success := false, error := some "no", uploadId := none,
    clientToken := none, totalParts := none }

/-- Worker for the C7 witness: create reports failure. -/
def envC7w : Env :=
  { createResp := .ok failCreateResp,
    partResp := fun pn => .ok (goodPartResp pn),
    completeResp := .ok okCompleteResp, abortResp := .ok () }

/-- A successful create response lacking the clientToken field. -/
def noTokenCreateResp : CreateResp :=
  { success := true, error := none, uploadId := some "uid",
    clientToken := none, totalParts := some 1 }

/-- Worker for the C8 witness: create succeeds but its response lacks the
clientToken field. -/
def envC8w : Env :=
  { createResp := .ok noTokenCreateResp,
    partResp := fun pn => .ok (goodPartResp pn),
    completeResp := .ok okCompleteResp, abortResp := .ok () }

/-- A part response reporting success with all fields present but a
totalBytes of 0. -/
def zeroTotalPartResp (pn : Nat) : PartResp :=
  { success := true, error := none, partNumber := some pn,
    etag := some "e", uploadedBytes := some 0, totalBytes := some 0 }

/-- Worker for the C9 run. -/
def envC9x : Env :=
  { createResp := .ok (okCreateResp 1),
    partResp := fun pn => .ok (zeroTotalPartResp pn),
    completeResp := .ok okCompleteResp, abortResp := .ok () }

/-- A successful completion response lacking the etag field. -/
def noEtagCompleteResp : CompleteResp :=
  { success := true, error := none, etag := none, size := some 1 }

/-- Worker for the C10 witness: everything succeeds but the completion
response lacks the etag field. -/
def envC10w : Env :=
  { createResp := .ok (okCreateResp 1), partResp := fun pn => .ok (goodPartResp pn),
    completeResp := .ok noEtagCompleteResp,
    abortResp := .ok () }

/-! ### Helper lemmas about the part loop -/

theorem take_chunk_isEmpty (c : List Nat) :
    (c.take CHUNK_SIZE).isEmpty = true ↔ c = [] := by
  rw [List.isEmpty_iff, List.take_eq_nil_iff]
  simp [CHUNK_SIZE]

theorem numChunks_zero : numChunks 0 = 0 := rfl

theorem numChunks_pos (L : Nat) (h : 1 ≤ L) : 1 ≤ numChunks L := by
  unfold numChunks CHUNK_SIZE
  omega

theorem numChunks_sub_chunk (L : Nat) (h : 1 ≤ L) :
    numChunks (L - CHUNK_SIZE) = numChunks L - 1 := by
  unfold numChunks CHUNK_SIZE
  omega

theorem partOutcome_of_good (env : Env) (pn : Nat) (pd : PartResp)
    (hpr : env.partResp pn = HttpResult.ok pd) (hg : goodPart pd) :
    ∃ rpn retag, pd.partNumber = some rpn ∧ pd.etag = some retag ∧
      partOutcome env pn = Except.ok { partNumber := rpn, etag := retag } := by
  obtain ⟨hs, hpn, het, hub, tb, htb, htbne⟩ := hg
  obtain ⟨rpn, hrpn⟩ := Option.isSome_iff_exists.mp hpn
  obtain ⟨retag, hretag⟩ := Option.isSome_iff_exists.mp het
  obtain ⟨ub, hub2⟩ := Option.isSome_iff_exists.mp hub
  refine ⟨rpn, retag, hrpn, hretag, ?_⟩
  simp [partOutcome, hpr, hs, dictGet, hrpn, hretag, hub2, htb, htbne]

theorem partOutcome_ok_elim (env : Env) (pn : Nat) (pair : PartPair)
    (h : partOutcome env pn = Except.ok pair) :
    ∃ pd, env.partResp pn = HttpResult.ok pd ∧ pd.partNumber = some pair.partNumber ∧
      pd.etag = some pair.etag := by
  unfold partOutcome at h
  cases hpr : env.partResp pn with
  | fail m => rw [hpr] at h; cases h
  | ok pd =>
    rw [hpr] at h
    dsimp only at h
    by_cases hs : pd.success = false
    · rw [if_pos hs] at h; cases h
    · rw [if_neg hs] at h
      cases hpn : pd.partNumber with
      | none => simp [dictGet, hpn] at h
      | some rpn =>
        simp only [dictGet, hpn] at h
        cases het : pd.etag with
        | none => simp [dictGet, het] at h
        | some retag =>
          simp only [dictGet, het] at h
          cases hub : pd.uploadedBytes with
          | none => simp [dictGet, hub] at h
          | some ub =>
            simp only [dictGet, hub] at h
            cases htb : pd.totalBytes with
            | none => simp [dictGet, htb] at h
            | some tb =>
              simp only [dictGet, htb] at h
              by_cases hz : tb = 0
              · rw [if_pos hz] at h; cases h
              · rw [if_neg hz] at h
                cases h
                exact ⟨pd, rfl, hpn, het⟩

theorem loop_events_shape (env : Env) (ct : String) (T : Nat) :
    ∀ r pn c acc, ∀ ev ∈ (uploadPartsLoop env ct T pn r c acc).1,
      ∃ pn2 il bs, ev = Event.putPart pn2 il bs (Token.client ct) := by
  intro r
  induction r with
  | zero => intro pn c acc ev hev; simp [uploadPartsLoop] at hev
  | succ n ih =>
    intro pn c acc ev hev
    rw [uploadPartsLoop] at hev
    by_cases hc : (c.take CHUNK_SIZE).isEmpty
    · rw [if_pos hc] at hev; simp at hev
    · rw [if_neg hc] at hev
      cases hpo : partOutcome env pn with
      | error e =>
        rw [hpo] at hev
        simp only [List.mem_singleton] at hev
        exact ⟨pn, _, _, hev⟩
      | ok pair =>
        rw [hpo] at hev
        simp only [List.mem_cons] at hev
        rcases hev with h | h
        · exact ⟨pn, _, _, h⟩
        · exact ih _ _ _ ev h

theorem loop_abortEvents (env : Env) (ct : String) (T r pn : Nat) (c : List Nat)
    (acc : List PartPair) :
    abortEvents (uploadPartsLoop env ct T pn r c acc).1 = [] := by
  rw [abortEvents, List.filter_eq_nil_iff]
  intro a ha
  obtain ⟨pn2, il, bs, rfl⟩ := loop_events_shape env ct T r pn c acc a ha
  simp [Event.isAbort]

theorem loop_completeParts (env : Env) (ct : String) (T r pn : Nat) (c : List Nat)
    (acc : List PartPair) :
    completeParts (uploadPartsLoop env ct T pn r c acc).1 = [] := by
  rw [completeParts, List.filterMap_eq_nil_iff]
  intro a ha
  obtain ⟨pn2, il, bs, rfl⟩ := loop_events_shape env ct T r pn c acc a ha
  rfl

theorem loop_ok_map_partNumber (env : Env) (ct : String) (T : Nat)
    (wf : echoesPartNumbers env) :
    ∀ r pn c acc parts, r ≤ numChunks c.length →
      (uploadPartsLoop env ct T pn r c acc).2 = Except.ok parts →
      parts.map PartPair.partNumber =
        acc.reverse.map PartPair.partNumber ++ List.range' pn r := by
  intro r
  induction r with
  | zero =>
    intro pn c acc parts _ h
    rw [uploadPartsLoop] at h
    cases h
    simp
  | succ n ih =>
    intro pn c acc parts hlen h
    have hcne : c ≠ [] := by
      intro hnil
      rw [hnil] at hlen
      simp only [List.length_nil, numChunks_zero] at hlen
      omega
    have hne : ¬ (c.take CHUNK_SIZE).isEmpty = true := by
      rw [take_chunk_isEmpty]; exact hcne
    rw [uploadPartsLoop] at h
    rw [if_neg hne] at h
    cases hpo : partOutcome env pn with
    | error e => rw [hpo] at h; cases h
    | ok pair =>
      rw [hpo] at h
      dsimp only at h
      have hlen2 : n ≤ numChunks (c.drop CHUNK_SIZE).length := by
        rw [List.length_drop, numChunks_sub_chunk _ ?h1]
        · omega
        · rcases c with _ | ⟨x, xs⟩
          · exact absurd rfl hcne
          · simp
      have hrec := ih (pn + 1) (c.drop CHUNK_SIZE) (pair :: acc) parts hlen2 h
      obtain ⟨pd, hpr, hpn, _⟩ := partOutcome_ok_elim env pn pair hpo
      have hecho := wf pn pd hpr
      rw [hecho] at hpn
      have hpairpn : pair.partNumber = pn := by
        injection hpn with h2; exact h2.symm
      rw [hrec, List.range'_succ]
      simp [hpairpn]

theorem loop_trace_allGood (env : Env) (ct : String) (T : Nat) (hg : allGood env) :
    ∀ r pn c acc, (uploadPartsLoop env ct T pn r c acc).1 =
      chunkEvents ct T pn (min r (numChunks c.length)) c := by
  intro r
  induction r with
  | zero => intro pn c acc; simp [uploadPartsLoop, chunkEvents]
  | succ n ih =>
    intro pn c acc
    by_cases hc : c = []
    · rw [hc]
      simp only [List.length_nil, numChunks_zero, Nat.min_zero]
      rw [uploadPartsLoop]
      simp [chunkEvents, List.isEmpty_iff]
    · have hne : ¬ (c.take CHUNK_SIZE).isEmpty = true := by
        rw [take_chunk_isEmpty]; exact hc
      have h1 : 1 ≤ c.length := by
        rcases c with _ | ⟨x, xs⟩
        · exact absurd rfl hc
        · simp
      obtain ⟨pd, hpr, hgood⟩ := hg pn
      obtain ⟨rpn, retag, _, _, hpo⟩ := partOutcome_of_good env pn pd hpr hgood
      have h2 : numChunks (c.drop CHUNK_SIZE).length = numChunks c.length - 1 := by
        rw [List.length_drop]
        exact numChunks_sub_chunk _ h1
      have h3 : min (n + 1) (numChunks c.length) =
          min n (numChunks (c.drop CHUNK_SIZE).length) + 1 := by
        rw [h2]
        have := numChunks_pos _ h1
        omega
      rw [uploadPartsLoop, if_neg hne, hpo]
      dsimp only
      rw [ih, h3, chunkEvents]

theorem chunkEvents_map_partNumber (ct : String) (T : Nat) :
    ∀ n pn c, (putDescs (chunkEvents ct T pn n c)).map PutDesc.partNumber =
      List.range' pn n := by
  intro n
  induction n with
  | zero => intro pn c; simp [chunkEvents, putDescs]
  | succ k ih =>
    intro pn c
    rw [chunkEvents, List.range'_succ]
    simp only [putDescs, List.filterMap_cons]
    rw [List.map_cons]
    have := ih (pn + 1) (c.drop CHUNK_SIZE)
    rw [putDescs] at this
    rw [this]

theorem chunkEvents_map_byteLen (ct : String) (T : Nat) :
    ∀ n pn c, (putDescs (chunkEvents ct T pn n c)).map PutDesc.byteLen =
      chunkLensN n c.length := by
  intro n
  induction n with
  | zero => intro pn c; simp [chunkEvents, putDescs, chunkLensN]
  | succ k ih =>
    intro pn c
    rw [chunkEvents, chunkLensN]
    simp only [putDescs, List.filterMap_cons]
    rw [List.map_cons]
    have := ih (pn + 1) (c.drop CHUNK_SIZE)
    rw [putDescs] at this
    rw [this, List.length_take, List.length_drop]

theorem chunkEvents_isLast (ct : String) (T : Nat) :
    ∀ n pn c, ∀ d ∈ putDescs (chunkEvents ct T pn n c),
      (d.isLast = true ↔ d.partNumber = T) := by
  intro n
  induction n with
  | zero => intro pn c d hd; simp [chunkEvents, putDescs] at hd
  | succ k ih =>
    intro pn c d hd
    rw [chunkEvents] at hd
    simp only [putDescs, List.filterMap_cons] at hd
    rcases List.mem_cons.mp hd with h | h
    · rw [h]
      simp [Nat.beq_eq_true_eq]
    · exact ih (pn + 1) (c.drop CHUNK_SIZE) d h

theorem chunkLensN_sum :
    ∀ n L, (chunkLensN n L).sum = min L (n * CHUNK_SIZE) := by
  intro n
  induction n with
  | zero => intro L; simp [chunkLensN]
  | succ k ih =>
    intro L
    rw [chunkLensN, List.sum_cons, ih (L - CHUNK_SIZE)]
    simp only [CHUNK_SIZE]
    omega

theorem cons_replicate_pred {α : Type} (a : α) (t : Nat) (h : 1 ≤ t) :
    a :: List.replicate (t - 1) a = List.replicate t a := by
  rcases t with _ | t2
  · omega
  · simp [List.replicate_succ]

theorem chunkLensN_closed_form :
    ∀ T L, T = numChunks L → 1 ≤ L →
      chunkLensN T L = List.replicate (T - 1) CHUNK_SIZE ++ [L - (T - 1) * CHUNK_SIZE] := by
  intro T
  induction T with
  | zero =>
    intro L hT hL
    exact absurd hT.symm (by have := numChunks_pos L hL; omega)
  | succ t ih =>
    intro L hT hL
    rcases Nat.eq_zero_or_pos t with ht | ht
    · subst ht
      rw [chunkLensN, chunkLensN]
      have hLle : L ≤ CHUNK_SIZE := by
        unfold numChunks CHUNK_SIZE at hT
        unfold CHUNK_SIZE
        omega
      have hmin : min CHUNK_SIZE L = L := by omega
      rw [hmin]
      simp
    · have hT2 : t = numChunks (L - CHUNK_SIZE) := by
        rw [numChunks_sub_chunk _ hL]
        omega
      have hT3 := hT
      unfold numChunks CHUNK_SIZE at hT3
      have hLgt : CHUNK_SIZE < L := by
        unfold CHUNK_SIZE
        omega
      have hL2 : 1 ≤ L - CHUNK_SIZE := by omega
      rw [chunkLensN, ih (L - CHUNK_SIZE) hT2 hL2]
      have hmin : min CHUNK_SIZE L = CHUNK_SIZE := by omega
      have hlast : L - CHUNK_SIZE - (t - 1) * CHUNK_SIZE = L - t * CHUNK_SIZE := by
        simp only [CHUNK_SIZE]
        omega
      have hsimp : t + 1 - 1 = t := by omega
      rw [hsimp, hmin, hlast, ← List.cons_append, cons_replicate_pred _ t ht]

theorem last_chunk_len (L : Nat) (hL : 1 ≤ L) :
    L - (numChunks L - 1) * CHUNK_SIZE =
      if L % CHUNK_SIZE = 0 then CHUNK_SIZE else L % CHUNK_SIZE := by
  unfold numChunks CHUNK_SIZE
  by_cases h : L % (5 * 1024 * 1024) = 0
  · rw [if_pos h]
    omega
  · rw [if_neg h]
    omega

/-! ### Characterization lemmas for the upload stages -/

theorem create_upload_fst (cfg : Config) (env : Env) (fid : String) (S : Nat) (mt : String) :
    (create_upload cfg env fid S mt).1 =
      [Event.create fid S mt (generate_backend_jwt cfg "create")] := rfl

theorem create_upload_ok (cfg : Config) (env : Env) (fid : String) (S : Nat) (mt : String)
    (data : CreateResp) (uid : String) (T : Nat)
    (hcr : env.createResp = HttpResult.ok data) (hsu : data.success = true)
    (hui : data.uploadId = some uid) (htp : data.totalParts = some T) :
    (create_upload cfg env fid S mt).2 = Except.ok data := by
  simp [create_upload, hcr, hsu, hui, htp, dictGet]

theorem complete_upload_fst (cfg : Config) (env : Env) (uid fid : String)
    (parts : List PartPair) :
    (complete_upload cfg env uid fid parts).1 =
      [Event.complete uid fid parts (generate_backend_jwt cfg "complete")] := rfl

theorem abort_upload_fst (cfg : Config) (env : Env) (uid fid : String) :
    (abort_upload cfg env uid fid).1 =
      [Event.abort uid fid (generate_backend_jwt cfg "abort")] := rfl

theorem abort_upload_warn_ok (cfg : Config) (env : Env) (uid fid : String) (u : Unit)
    (h : env.abortResp = HttpResult.ok u) :
    (abort_upload cfg env uid fid).2 = [] := by
  simp [abort_upload, h]

theorem abort_upload_warn_fail (cfg : Config) (env : Env) (uid fid m : String)
    (h : env.abortResp = HttpResult.fail m) :
    (abort_upload cfg env uid fid).2 =
      ["Warning: Failed to abort upload: Request failed: " ++ m] := by
  simp [abort_upload, h]

theorem upload_file_parts_eq (env : Env) (fs : FileSys) (ct : String)
    (data : CreateResp) (T : Nat) (htp : data.totalParts = some T) :
    upload_file_parts env fs ct data = uploadPartsLoop env ct T 1 T fs.content [] := by
  simp [upload_file_parts, htp, dictGet]

theorem upload_file_parts_events_shape (env : Env) (fs : FileSys) (ct : String)
    (data : CreateResp) :
    ∀ ev ∈ (upload_file_parts env fs ct data).1,
      ∃ pn il bs, ev = Event.putPart pn il bs (Token.client ct) := by
  intro ev hev
  unfold upload_file_parts at hev
  cases htp : data.totalParts with
  | none => simp [dictGet, htp] at hev
  | some T =>
    simp only [dictGet, htp] at hev
    exact loop_events_shape env ct T T 1 fs.content [] ev hev

theorem upload_file_parts_completeParts (env : Env) (fs : FileSys) (ct : String)
    (data : CreateResp) :
    completeParts (upload_file_parts env fs ct data).1 = [] := by
  rw [completeParts, List.filterMap_eq_nil_iff]
  intro a ha
  obtain ⟨pn, il, bs, rfl⟩ := upload_file_parts_events_shape env fs ct data a ha
  rfl

theorem upload_file_parts_abortEvents (env : Env) (fs : FileSys) (ct : String)
    (data : CreateResp) :
    abortEvents (upload_file_parts env fs ct data).1 = [] := by
  rw [abortEvents, List.filter_eq_nil_iff]
  intro a ha
  obtain ⟨pn, il, bs, rfl⟩ := upload_file_parts_events_shape env fs ct data a ha
  simp [Event.isAbort]

theorem upload_inner_parts_error (cfg : Config) (env : Env) (fs : FileSys)
    (nm ct uid : String) (data : CreateResp) (e : Exc)
    (h : (upload_file_parts env fs ct data).2 = Except.error e) :
    upload_inner cfg env fs nm ct uid data =
      ((upload_file_parts env fs ct data).1, Except.error e) := by
  simp only [upload_inner, h]

theorem upload_inner_parts_ok_fst (cfg : Config) (env : Env) (fs : FileSys)
    (nm ct uid : String) (data : CreateResp) (parts : List PartPair)
    (h : (upload_file_parts env fs ct data).2 = Except.ok parts) :
    (upload_inner cfg env fs nm ct uid data).1 =
      (upload_file_parts env fs ct data).1 ++
        [Event.complete uid nm parts (generate_backend_jwt cfg "complete")] := by
  simp only [upload_inner, h, complete_upload_fst]

theorem wrap_unexpected_uploadError (m : String) :
    wrap_unexpected (Exc.uploadError m) = Exc.uploadError m := rfl

theorem wrap_unexpected_other (e : Exc) (h : e.isUploadError = false) :
    wrap_unexpected e = Exc.uploadError ("Unexpected error: " ++ e.str) := by
  cases e with
  | uploadError m => simp [Exc.isUploadError] at h
  | keyError k => rfl
  | zeroDivisionError => rfl

theorem upload_file_trace (cfg : Config) (env : Env) (fs : FileSys) (p nm : String) :
    (upload_file cfg env fs p nm).trace = (upload_core cfg env fs p nm).1 := rfl

theorem upload_file_warnings (cfg : Config) (env : Env) (fs : FileSys) (p nm : String) :
    (upload_file cfg env fs p nm).warnings = (upload_core cfg env fs p nm).2.1 := rfl

theorem upload_file_result_of_ok (cfg : Config) (env : Env) (fs : FileSys) (p nm u : String)
    (h : (upload_core cfg env fs p nm).2.2 = Except.ok u) :
    (upload_file cfg env fs p nm).result = Except.ok u := by
  simp only [upload_file, h]

theorem upload_file_result_of_error (cfg : Config) (env : Env) (fs : FileSys) (p nm : String)
    (e : Exc) (h : (upload_core cfg env fs p nm).2.2 = Except.error e) :
    (upload_file cfg env fs p nm).result = Except.error (wrap_unexpected e) := by
  simp only [upload_file, h]

theorem upload_core_create_fail (cfg : Config) (env : Env) (fs : FileSys)
    (p nm m : String) (hfe : fs.fileExists = true)
    (hcr : env.createResp = HttpResult.fail m) :
    upload_core cfg env fs p nm =
      ([Event.create nm fs.size (fs.mimeGuess.getD "application/octet-stream")
          (generate_backend_jwt cfg "create")], [],
        Except.error (Exc.uploadError ("Request failed: " ++ m))) := by
  simp only [upload_core, get_file_info, hfe, if_true, create_upload, hcr]

theorem upload_core_create_rejected (cfg : Config) (env : Env) (fs : FileSys)
    (p nm : String) (data : CreateResp) (hfe : fs.fileExists = true)
    (hcr : env.createResp = HttpResult.ok data) (hsu : data.success = false) :
    upload_core cfg env fs p nm =
      ([Event.create nm fs.size (fs.mimeGuess.getD "application/octet-stream")
          (generate_backend_jwt cfg "create")], [],
        Except.error (Exc.uploadError
          ("Failed to create upload: " ++ data.error.getD "Unknown error"))) := by
  simp only [upload_core, get_file_info, hfe, if_true, create_upload, hcr, hsu, if_pos]

theorem upload_core_missing_uploadId (cfg : Config) (env : Env) (fs : FileSys)
    (p nm : String) (data : CreateResp) (hfe : fs.fileExists = true)
    (hcr : env.createResp = HttpResult.ok data) (hsu : data.success = true)
    (hui : data.uploadId = none) :
    upload_core cfg env fs p nm =
      ([Event.create nm fs.size (fs.mimeGuess.getD "application/octet-stream")
          (generate_backend_jwt cfg "create")], [],
        Except.error (Exc.keyError "uploadId")) := by
  simp only [upload_core, get_file_info, hfe, if_true, create_upload, hcr, hsu, hui, dictGet]
  simp

theorem upload_core_missing_totalParts (cfg : Config) (env : Env) (fs : FileSys)
    (p nm : String) (data : CreateResp) (uid : String) (hfe : fs.fileExists = true)
    (hcr : env.createResp = HttpResult.ok data) (hsu : data.success = true)
    (hui : data.uploadId = some uid) (htp : data.totalParts = none) :
    upload_core cfg env fs p nm =
      ([Event.create nm fs.size (fs.mimeGuess.getD "application/octet-stream")
          (generate_backend_jwt cfg "create")], [],
        Except.error (Exc.keyError "totalParts")) := by
  simp only [upload_core, get_file_info, hfe, if_true, create_upload, hcr, hsu, hui, htp,
    dictGet]
  simp

theorem upload_core_missing_clientToken (cfg : Config) (env : Env) (fs : FileSys)
    (p nm : String) (data : CreateResp) (uid : String) (T : Nat) (hfe : fs.fileExists = true)
    (hcr : env.createResp = HttpResult.ok data) (hsu : data.success = true)
    (hui : data.uploadId = some uid) (htp : data.totalParts = some T)
    (hct : data.clientToken = none) :
    upload_core cfg env fs p nm =
      ([Event.create nm fs.size (fs.mimeGuess.getD "application/octet-stream")
          (generate_backend_jwt cfg "create")], [],
        Except.error (Exc.keyError "clientToken")) := by
  simp only [upload_core, get_file_info, hfe, if_true, create_upload, hcr, hsu, hui, htp,
    hct, dictGet]
  simp [hct, dictGet]

theorem upload_core_inner_error (cfg : Config) (env : Env) (fs : FileSys)
    (p nm : String) (data : CreateResp) (uid ct : String) (T : Nat) (e : Exc)
    (hfe : fs.fileExists = true)
    (hcr : env.createResp = HttpResult.ok data) (hsu : data.success = true)
    (hui : data.uploadId = some uid) (hct : data.clientToken = some ct)
    (htp : data.totalParts = some T)
    (hinner : (upload_inner cfg env fs nm ct uid data).2 = Except.error e) :
    upload_core cfg env fs p nm =
      (Event.create nm fs.size (fs.mimeGuess.getD "application/octet-stream")
          (generate_backend_jwt cfg "create") ::
        ((upload_inner cfg env fs nm ct uid data).1 ++ (abort_upload cfg env uid nm).1),
        (abort_upload cfg env uid nm).2, Except.error e) := by
  simp only [upload_core, get_file_info, hfe, if_true,
    create_upload_ok cfg env nm fs.size (fs.mimeGuess.getD "application/octet-stream")
      data uid T hcr hsu hui htp,
    create_upload_fst, hct, hui, dictGet, hinner, List.singleton_append,
    List.cons_append, List.nil_append]

theorem upload_core_inner_ok (cfg : Config) (env : Env) (fs : FileSys)
    (p nm : String) (data : CreateResp) (uid ct : String) (T : Nat) (url : String)
    (hfe : fs.fileExists = true)
    (hcr : env.createResp = HttpResult.ok data) (hsu : data.success = true)
    (hui : data.uploadId = some uid) (hct : data.clientToken = some ct)
    (htp : data.totalParts = some T)
    (hinner : (upload_inner cfg env fs nm ct uid data).2 = Except.ok url) :
    upload_core cfg env fs p nm =
      (Event.create nm fs.size (fs.mimeGuess.getD "application/octet-stream")
          (generate_backend_jwt cfg "create") ::
        (upload_inner cfg env fs nm ct uid data).1,
        [], Except.ok url) := by
  simp only [upload_core, get_file_info, hfe, if_true,
    create_upload_ok cfg env nm fs.size (fs.mimeGuess.getD "application/octet-stream")
      data uid T hcr hsu hui htp,
    create_upload_fst, hct, hui, dictGet, hinner, List.singleton_append]

/-! ### Claim theorems -/

/-- C4: for every action, the backend token issued by `_generate_backend_jwt`
deterministically embeds the type tag "backend", the action, the issue
time, and an expiry exactly 3600 seconds after the issue time, and is
signed with the shared secret using HS256. -/
theorem c4_backend_jwt_shape (cfg : Config) (action : String) :
    ∃ p s a, generate_backend_jwt cfg action = Token.backend p s a ∧
      p.type = "backend" ∧ p.action = action ∧ p.iat = cfg.now ∧
      p.exp = p.iat + 3600 ∧ s = cfg.jwt_secret ∧ a = "HS256" :=
  ⟨_, _, _, rfl, rfl, rfl, rfl, rfl, rfl, rfl⟩

/-- C5: if the create call fails — transport error or worker-reported
`success:false` — `upload_file` raises an UploadError and the coordinator
never issues a putPart or abort request. -/
theorem c5_create_failure_no_parts_no_abort (cfg : Config) (env : Env) (fs : FileSys)
    (p nm : String) (hfe : fs.fileExists = true)
    (hfail : (∃ m, env.createResp = HttpResult.fail m) ∨
      (∃ data, env.createResp = HttpResult.ok data ∧ data.success = false)) :
    (∃ m, (upload_file cfg env fs p nm).result = Except.error (Exc.uploadError m)) ∧
      putPartEvents (upload_file cfg env fs p nm).trace = [] ∧
      abortEvents (upload_file cfg env fs p nm).trace = [] := by
  rcases hfail with ⟨m, hm⟩ | ⟨data, hd, hsu⟩
  · have hcore := upload_core_create_fail cfg env fs p nm m hfe hm
    refine ⟨⟨"Request failed: " ++ m, ?_⟩, ?_, ?_⟩
    · rw [upload_file_result_of_error cfg env fs p nm _ (by rw [hcore])]
      rfl
    · rw [upload_file_trace, hcore]
      rfl
    · rw [upload_file_trace, hcore]
      rfl
  · have hcore := upload_core_create_rejected cfg env fs p nm data hfe hd hsu
    refine ⟨⟨"Failed to create upload: " ++ data.error.getD "Unknown error", ?_⟩, ?_, ?_⟩
    · rw [upload_file_result_of_error cfg env fs p nm _ (by rw [hcore])]
      rfl
    · rw [upload_file_trace, hcore]
      rfl
    · rw [upload_file_trace, hcore]
      rfl

/-- C5 witness: a concrete run whose create request fails at transport
level ends in an UploadError with no putPart and no abort issued. -/
theorem c5_witness :
    fsOne.fileExists = true ∧
      ((∃ m, envC5w.createResp = HttpResult.fail m) ∨
        (∃ data, envC5w.createResp = HttpResult.ok data ∧ data.success = false)) ∧
      ((∃ m, (upload_file cfgEx envC5w fsOne "f" "r").result =
          Except.error (Exc.uploadError m)) ∧
        putPartEvents (upload_file cfgEx envC5w fsOne "f" "r").trace = [] ∧
        abortEvents (upload_file cfgEx envC5w fsOne "f" "r").trace = []) :=
  ⟨rfl, Or.inl ⟨"down", rfl⟩,
    c5_create_failure_no_parts_no_abort cfgEx envC5w fsOne "f" "r" rfl
      (Or.inl ⟨"down", rfl⟩)⟩

/-- C8: when create reports success but its response lacks uploadId,
totalParts or clientToken, upload_file raises the UploadError wrapping of
the KeyError for the first missing field, and the whole trace is the
create request alone: no putPart and no abort is ever issued, although a
session may already exist at the worker. -/
theorem c8_missing_field_no_abort (cfg : Config) (env : Env) (fs : FileSys)
    (p nm : String) (data : CreateResp) (hfe : fs.fileExists = true)
    (hcr : env.createResp = HttpResult.ok data) (hsu : data.success = true)
    (hmiss : data.uploadId = none ∨ data.totalParts = none ∨ data.clientToken = none) :
    ∃ k, (k = "uploadId" ∨ k = "totalParts" ∨ k = "clientToken") ∧
      (upload_file cfg env fs p nm).result =
        Except.error (Exc.uploadError ("Unexpected error: " ++ (Exc.keyError k).str)) ∧
      (upload_file cfg env fs p nm).trace =
        [Event.create nm fs.size (fs.mimeGuess.getD "application/octet-stream")
          (generate_backend_jwt cfg "create")] ∧
      putPartEvents (upload_file cfg env fs p nm).trace = [] ∧
      abortEvents (upload_file cfg env fs p nm).trace = [] := by
  have main : ∀ k, upload_core cfg env fs p nm =
      ([Event.create nm fs.size (fs.mimeGuess.getD "application/octet-stream")
          (generate_backend_jwt cfg "create")], [], Except.error (Exc.keyError k)) →
      (upload_file cfg env fs p nm).result =
        Except.error (Exc.uploadError ("Unexpected error: " ++ (Exc.keyError k).str)) ∧
      (upload_file cfg env fs p nm).trace =
        [Event.create nm fs.size (fs.mimeGuess.getD "application/octet-stream")
          (generate_backend_jwt cfg "create")] ∧
      putPartEvents (upload_file cfg env fs p nm).trace = [] ∧
      abortEvents (upload_file cfg env fs p nm).trace = [] := by
    intro k hcore
    refine ⟨?_, ?_, ?_, ?_⟩
    · rw [upload_file_result_of_error cfg env fs p nm _ (by rw [hcore])]
      rfl
    · rw [upload_file_trace, hcore]
    · rw [upload_file_trace, hcore]
      rfl
    · rw [upload_file_trace, hcore]
      rfl
  cases hui : data.uploadId with
  | none =>
    exact ⟨"uploadId", Or.inl rfl,
      main "uploadId" (upload_core_missing_uploadId cfg env fs p nm data hfe hcr hsu hui)⟩
  | some uid =>
    cases htp : data.totalParts with
    | none =>
      exact ⟨"totalParts", Or.inr (Or.inl rfl),
        main "totalParts"
          (upload_core_missing_totalParts cfg env fs p nm data uid hfe hcr hsu hui htp)⟩
    | some T =>
      have hct : data.clientToken = none := by
        rcases hmiss with h | h | h
        · rw [hui] at h; cases h
        · rw [htp] at h; cases h
        · exact h
      exact ⟨"clientToken", Or.inr (Or.inr rfl),
        main "clientToken"
          (upload_core_missing_clientToken cfg env fs p nm data uid T hfe hcr hsu hui htp hct)⟩

/-- C8 witness: a concrete create response missing only clientToken makes
upload_file fail with the wrapped KeyError and issue nothing but the
create request. -/
theorem c8_witness :
    envC8w.createResp = HttpResult.ok noTokenCreateResp ∧
      noTokenCreateResp.success = true ∧
      noTokenCreateResp.clientToken = none ∧
      (∃ k, (k = "uploadId" ∨ k = "totalParts" ∨ k = "clientToken") ∧
        (upload_file cfgEx envC8w fsOne "f" "r").result =
          Except.error (Exc.uploadError ("Unexpected error: " ++ (Exc.keyError k).str)) ∧
        (upload_file cfgEx envC8w fsOne "f" "r").trace =
          [Event.create "r" fsOne.size (fsOne.mimeGuess.getD "application/octet-stream")
            (generate_backend_jwt cfgEx "create")] ∧
        putPartEvents (upload_file cfgEx envC8w fsOne "f" "r").trace = [] ∧
        abortEvents (upload_file cfgEx envC8w fsOne "f" "r").trace = []) :=
  ⟨rfl, rfl, rfl,
    c8_missing_field_no_abort cfgEx envC8w fsOne "f" "r" noTokenCreateResp rfl rfl rfl
      (Or.inr (Or.inr rfl))⟩

/-- C9: a putPart response the worker marks successful can still fail the
upload: in this concrete run the response carries totalBytes = 0, the
progress computation divides by zero inside upload_file_parts, the abort
path is taken once with the session identifiers, and upload_file raises
the wrapped ZeroDivisionError. -/
theorem c9_worker_success_not_sufficient :
    (envC9x.partResp 1 = HttpResult.ok (zeroTotalPartResp 1) ∧
      (zeroTotalPartResp 1).success = true ∧
      (zeroTotalPartResp 1).totalBytes = some 0) ∧
    (upload_file cfgEx envC9x fsOne "f" "r").result =
      Except.error (Exc.uploadError "Unexpected error: division by zero") ∧
    abortEvents (upload_file cfgEx envC9x fsOne "f" "r").trace =
      [Event.abort "uid" "r" (generate_backend_jwt cfgEx "abort")] := by
  refine ⟨⟨rfl, rfl, rfl⟩, ?_, ?_⟩
  · rfl
  · rfl

/-- C10: every exception escaping upload_file is an UploadError: the
result is either a URL or an UploadError; an UploadError raised inside the
outer try propagates unchanged, and any other exception is re-raised as an
UploadError with the "Unexpected error: " prefix on the original message. -/
theorem c10_all_errors_are_upload_errors (cfg : Config) (env : Env) (fs : FileSys)
    (p nm : String) :
    ((∃ u, (upload_file cfg env fs p nm).result = Except.ok u) ∨
      (∃ m, (upload_file cfg env fs p nm).result = Except.error (Exc.uploadError m))) ∧
    (∀ m, (upload_core cfg env fs p nm).2.2 = Except.error (Exc.uploadError m) →
      (upload_file cfg env fs p nm).result = Except.error (Exc.uploadError m)) ∧
    (∀ e, (upload_core cfg env fs p nm).2.2 = Except.error e → e.isUploadError = false →
      (upload_file cfg env fs p nm).result =
        Except.error (Exc.uploadError ("Unexpected error: " ++ e.str))) := by
  refine ⟨?_, ?_, ?_⟩
  · cases hc : (upload_core cfg env fs p nm).2.2 with
    | ok u => exact Or.inl ⟨u, upload_file_result_of_ok cfg env fs p nm u hc⟩
    | error e =>
      cases e with
      | uploadError m =>
        exact Or.inr ⟨m, by rw [upload_file_result_of_error cfg env fs p nm _ hc]; rfl⟩
      | keyError k =>
        exact Or.inr ⟨"Unexpected error: " ++ (Exc.keyError k).str,
          by rw [upload_file_result_of_error cfg env fs p nm _ hc]; rfl⟩
      | zeroDivisionError =>
        exact Or.inr ⟨"Unexpected error: " ++ Exc.zeroDivisionError.str,
          by rw [upload_file_result_of_error cfg env fs p nm _ hc]; rfl⟩
  · intro m hm
    rw [upload_file_result_of_error cfg env fs p nm _ hm]
    rfl
  · intro e he hne
    rw [upload_file_result_of_error cfg env fs p nm _ he, wrap_unexpected_other e hne]

/-- C10 witness: a concrete run whose inner block raises the KeyError for
the missing completion etag surfaces as the prefixed UploadError. -/
theorem c10_witness :
    (upload_core cfgEx envC10w fsOne "f" "r").2.2 = Except.error (Exc.keyError "etag") ∧
      (Exc.keyError "etag").isUploadError = false ∧
      (upload_file cfgEx envC10w fsOne "f" "r").result =
        Except.error (Exc.uploadError ("Unexpected error: " ++ (Exc.keyError "etag").str)) :=
  ⟨rfl, rfl,
    (c10_all_errors_are_upload_errors cfgEx envC10w fsOne "f" "r").2.2
      (Exc.keyError "etag") rfl rfl⟩

/-- C1: if after a successful create some putPart call fails — transport
error or worker-reported failure, both raising UploadError — abort is
issued exactly once, with the session's uploadId and the resourceId, and
the caller of upload_file observes the original part-upload error, not
any error of the abort call (no assumption is made on the abort response). -/
theorem c1_part_failure_abort_once (cfg : Config) (env : Env) (fs : FileSys)
    (p nm : String) (data : CreateResp) (uid ct : String) (T : Nat) (m : String)
    (hfe : fs.fileExists = true)
    (hcr : env.createResp = HttpResult.ok data) (hsu : data.success = true)
    (hui : data.uploadId = some uid) (hct : data.clientToken = some ct)
    (htp : data.totalParts = some T)
    (hparts : (upload_file_parts env fs ct data).2 = Except.error (Exc.uploadError m)) :
    (upload_file cfg env fs p nm).result = Except.error (Exc.uploadError m) ∧
      abortEvents (upload_file cfg env fs p nm).trace =
        [Event.abort uid nm (generate_backend_jwt cfg "abort")] := by
  have hinner : (upload_inner cfg env fs nm ct uid data).2 =
      Except.error (Exc.uploadError m) := by
    rw [upload_inner_parts_error cfg env fs nm ct uid data _ hparts]
  have hcore := upload_core_inner_error cfg env fs p nm data uid ct T _
    hfe hcr hsu hui hct htp hinner
  constructor
  · rw [upload_file_result_of_error cfg env fs p nm _ (by rw [hcore])]
    rfl
  · rw [upload_file_trace, hcore,
      upload_inner_parts_error cfg env fs nm ct uid data _ hparts]
    have h1 := upload_file_parts_abortEvents env fs ct data
    rw [abortEvents] at h1 ⊢
    rw [abort_upload_fst]
    simp [List.filter_cons, List.filter_append, Event.isAbort, h1]

/-- C1 witness: a concrete run with a transport failure on part 1 after a
successful create aborts once with the session identifiers and surfaces
the part error. -/
theorem c1_witness :
    (upload_file_parts envC1w fsOne "ctok" (okCreateResp 1)).2 =
        Except.error (Exc.uploadError "Request failed: boom") ∧
      (upload_file cfgEx envC1w fsOne "f" "r").result =
        Except.error (Exc.uploadError "Request failed: boom") ∧
      abortEvents (upload_file cfgEx envC1w fsOne "f" "r").trace =
        [Event.abort "uid" "r" (generate_backend_jwt cfgEx "abort")] :=
  ⟨rfl,
    c1_part_failure_abort_once cfgEx envC1w fsOne "f" "r" (okCreateResp 1) "uid" "ctok" 1
      "Request failed: boom" rfl rfl rfl rfl rfl rfl rfl⟩

/-- C6: the abort compensation is best-effort: whatever the abort
response, the caller observes the failure that triggered the abort (an
UploadError propagates unchanged); when the abort call itself fails, its
failure surfaces only as the recorded warning, and when it succeeds there
is no warning — abort_upload itself never raises, having no error channel. -/
theorem c6_abort_never_masks (cfg : Config) (env : Env) (fs : FileSys)
    (p nm : String) (data : CreateResp) (uid ct : String) (T : Nat) (e : Exc)
    (hfe : fs.fileExists = true)
    (hcr : env.createResp = HttpResult.ok data) (hsu : data.success = true)
    (hui : data.uploadId = some uid) (hct : data.clientToken = some ct)
    (htp : data.totalParts = some T)
    (hinner : (upload_inner cfg env fs nm ct uid data).2 = Except.error e) :
    (upload_file cfg env fs p nm).result = Except.error (wrap_unexpected e) ∧
      (e.isUploadError = true →
        (upload_file cfg env fs p nm).result = Except.error e) ∧
      (∀ w, env.abortResp = HttpResult.fail w →
        (upload_file cfg env fs p nm).warnings =
          ["Warning: Failed to abort upload: Request failed: " ++ w]) ∧
      (∀ u, env.abortResp = HttpResult.ok u →
        (upload_file cfg env fs p nm).warnings = []) := by
  have hcore := upload_core_inner_error cfg env fs p nm data uid ct T e
    hfe hcr hsu hui hct htp hinner
  have hres : (upload_file cfg env fs p nm).result = Except.error (wrap_unexpected e) :=
    upload_file_result_of_error cfg env fs p nm e (by rw [hcore])
  refine ⟨hres, ?_, ?_, ?_⟩
  · intro hue
    rw [hres]
    cases e with
    | uploadError m => rfl
    | keyError k => simp [Exc.isUploadError] at hue
    | zeroDivisionError => simp [Exc.isUploadError] at hue
  · intro w hw
    rw [upload_file_warnings, hcore]
    exact abort_upload_warn_fail cfg env uid nm w hw
  · intro u hu
    rw [upload_file_warnings, hcore]
    exact abort_upload_warn_ok cfg env uid nm u hu

/-- C6 witness: a concrete run where part 1 fails and the abort request
itself fails still reports the original part error, with the abort
failure only as a warning. -/
theorem c6_witness :
    (upload_inner cfgEx envC6w fsOne "r" "ctok" "uid" (okCreateResp 1)).2 =
        Except.error (Exc.uploadError "Request failed: boom") ∧
      envC6w.abortResp = HttpResult.fail "abboom" ∧
      (upload_file cfgEx envC6w fsOne "f" "r").result =
        Except.error (wrap_unexpected (Exc.uploadError "Request failed: boom")) ∧
      (upload_file cfgEx envC6w fsOne "f" "r").warnings =
        ["Warning: Failed to abort upload: Request failed: " ++ "abboom"] := by
  have h := c6_abort_never_masks cfgEx envC6w fsOne "f" "r" (okCreateResp 1) "uid" "ctok" 1
    (Exc.uploadError "Request failed: boom") rfl rfl rfl rfl rfl rfl rfl
  exact ⟨rfl, rfl, h.1, h.2.2.1 "abboom" rfl⟩

theorem completeParts_append (l1 l2 : List Event) :
    completeParts (l1 ++ l2) = completeParts l1 ++ completeParts l2 := by
  simp [completeParts, List.filterMap_append]

theorem upload_inner_completeParts (cfg : Config) (env : Env) (fs : FileSys)
    (nm ct uid : String) (data : CreateResp) :
    ∀ ps ∈ completeParts (upload_inner cfg env fs nm ct uid data).1,
      (upload_file_parts env fs ct data).2 = Except.ok ps := by
  intro ps hps
  cases hp : (upload_file_parts env fs ct data).2 with
  | error e =>
    rw [upload_inner_parts_error cfg env fs nm ct uid data e hp] at hps
    rw [show ((upload_file_parts env fs ct data).1, Except.error (α := List PartPair) e).1 =
        (upload_file_parts env fs ct data).1 from rfl,
      upload_file_parts_completeParts] at hps
    exact absurd hps (List.not_mem_nil ps)
  | ok parts =>
    rw [upload_inner_parts_ok_fst cfg env fs nm ct uid data parts hp,
      completeParts_append, upload_file_parts_completeParts] at hps
    simp [completeParts] at hps
    subst hps
    rfl

/-- C2 (amended): provided the source actually yields at least totalParts
nonempty chunks (its readable length spans totalParts reads) and the
worker echoes each requested partNumber, every complete request of the
upload carries a parts list whose partNumbers are exactly 1..totalParts —
one recorded pair for every part, no gaps or duplicates — in strictly
ascending order. -/
theorem c2_complete_covers_sorted (cfg : Config) (env : Env) (fs : FileSys)
    (p nm : String) (data : CreateResp) (uid ct : String) (T : Nat)
    (hfe : fs.fileExists = true)
    (hcr : env.createResp = HttpResult.ok data) (hsu : data.success = true)
    (hui : data.uploadId = some uid) (hct : data.clientToken = some ct)
    (htp : data.totalParts = some T)
    (wf : echoesPartNumbers env)
    (hlen : T ≤ numChunks fs.content.length) :
    ∀ ps ∈ completeParts (upload_file cfg env fs p nm).trace,
      ps.map PartPair.partNumber = List.range' 1 T ∧ PartsCoverSorted ps T := by
  have main : ∀ ps, (upload_file_parts env fs ct data).2 = Except.ok ps →
      ps.map PartPair.partNumber = List.range' 1 T ∧ PartsCoverSorted ps T := by
    intro ps hok
    rw [upload_file_parts_eq env fs ct data T htp] at hok
    have hmap := loop_ok_map_partNumber env ct T wf T 1 fs.content [] ps hlen hok
    simp only [List.reverse_nil, List.map_nil, List.nil_append] at hmap
    refine ⟨hmap, ?_, ?_⟩
    · intro i h1 hiT
      rw [hmap]
      exact List.mem_range'_1.mpr ⟨h1, by omega⟩
    · rw [hmap]
      exact List.pairwise_lt_range' 1 T
  intro ps hps
  rw [upload_file_trace] at hps
  cases hinner : (upload_inner cfg env fs nm ct uid data).2 with
  | error e =>
    rw [upload_core_inner_error cfg env fs p nm data uid ct T e
        hfe hcr hsu hui hct htp hinner] at hps
    rw [show (Event.create nm fs.size (fs.mimeGuess.getD "application/octet-stream")
          (generate_backend_jwt cfg "create") ::
        ((upload_inner cfg env fs nm ct uid data).1 ++ (abort_upload cfg env uid nm).1),
        (abort_upload cfg env uid nm).2,
        Except.error (α := String) e).1 =
      Event.create nm fs.size (fs.mimeGuess.getD "application/octet-stream")
          (generate_backend_jwt cfg "create") ::
        ((upload_inner cfg env fs nm ct uid data).1 ++ (abort_upload cfg env uid nm).1)
      from rfl] at hps
    rw [show completeParts (Event.create nm fs.size
          (fs.mimeGuess.getD "application/octet-stream")
          (generate_backend_jwt cfg "create") ::
        ((upload_inner cfg env fs nm ct uid data).1 ++ (abort_upload cfg env uid nm).1)) =
      completeParts ((upload_inner cfg env fs nm ct uid data).1 ++
        (abort_upload cfg env uid nm).1) from rfl,
      completeParts_append, abort_upload_fst] at hps
    rw [show completeParts [Event.abort uid nm (generate_backend_jwt cfg "abort")] = []
      from rfl, List.append_nil] at hps
    exact main ps (upload_inner_completeParts cfg env fs nm ct uid data ps hps)
  | ok url =>
    rw [upload_core_inner_ok cfg env fs p nm data uid ct T url
        hfe hcr hsu hui hct htp hinner] at hps
    rw [show (Event.create nm fs.size (fs.mimeGuess.getD "application/octet-stream")
          (generate_backend_jwt cfg "create") ::
        (upload_inner cfg env fs nm ct uid data).1, ([] : List String),
        Except.ok (ε := Exc) url).1 =
      Event.create nm fs.size (fs.mimeGuess.getD "application/octet-stream")
          (generate_backend_jwt cfg "create") ::
        (upload_inner cfg env fs nm ct uid data).1
      from rfl] at hps
    rw [show completeParts (Event.create nm fs.size
          (fs.mimeGuess.getD "application/octet-stream")
          (generate_backend_jwt cfg "create") ::
        (upload_inner cfg env fs nm ct uid data).1) =
      completeParts (upload_inner cfg env fs nm ct uid data).1 from rfl] at hps
    exact main ps (upload_inner_completeParts cfg env fs nm ct uid data ps hps)

/-- C2 witness: a concrete one-part upload whose source covers the single
chunk: the one complete request carries exactly the pair for part 1. -/
theorem c2_witness :
    echoesPartNumbers envC2w ∧ 1 ≤ numChunks fsOne.content.length ∧
      (∀ ps ∈ completeParts (upload_file cfgEx envC2w fsOne "f" "r").trace,
        ps.map PartPair.partNumber = List.range' 1 1 ∧ PartsCoverSorted ps 1) := by
  have wf : echoesPartNumbers envC2w := by
    intro pn pd h
    cases h
    rfl
  exact ⟨wf, by decide,
    c2_complete_covers_sorted cfgEx envC2w fsOne "f" "r" (okCreateResp 1) "uid" "ctok" 1
      rfl rfl rfl rfl rfl rfl wf (by decide)⟩

/-- C2 counterexample: the unamended claim is false on the code.  With a
worker session of totalParts = 2 but a source of a single readable byte,
the loop breaks on the empty read and complete is nevertheless called,
with a parts list recording only part 1 — part number 2 has no recorded
pair, so the parts list does not cover 1..totalParts. -/
theorem c2_counterexample :
    envC2x.createResp = HttpResult.ok (okCreateResp 2) ∧
      (okCreateResp 2).totalParts = some 2 ∧
      completeParts (upload_file cfgEx envC2x fsC2x "f" "r").trace =
        [[{ partNumber := 1, etag := "e" }]] ∧
      ¬ PartsCoverSorted [{ partNumber := 1, etag := "e" }] 2 := by
  refine ⟨rfl, rfl, by decide, ?_⟩
  intro h
  have h2 := h.1 2 (by omega) (by omega)
  simp [PartPair.partNumber] at h2

/-- C3: for a source of S readable bytes, under the precondition that the
session's totalParts equals ceil(S / CHUNK_SIZE), and with a worker that
accepts every part, the loop of upload_file_parts sends chunks of lengths
CHUNK_SIZE, ..., S mod CHUNK_SIZE (CHUNK_SIZE exactly when S mod
CHUNK_SIZE = 0) summing exactly to S, with part numbers exactly
1..totalParts and the isLast flag attached exactly to the request with
partNumber = totalParts. -/
theorem c3_chunking (env : Env) (fs : FileSys) (ct : String) (data : CreateResp) (T : Nat)
    (htp : data.totalParts = some T) (hg : allGood env)
    (hT : T = numChunks fs.content.length) :
    ((putDescs (upload_file_parts env fs ct data).1).map PutDesc.partNumber =
      List.range' 1 T) ∧
    (((putDescs (upload_file_parts env fs ct data).1).map PutDesc.byteLen).sum =
      fs.content.length) ∧
    (1 ≤ fs.content.length →
      (putDescs (upload_file_parts env fs ct data).1).map PutDesc.byteLen =
        List.replicate (T - 1) CHUNK_SIZE ++
          [if fs.content.length % CHUNK_SIZE = 0 then CHUNK_SIZE
           else fs.content.length % CHUNK_SIZE]) ∧
    (∀ d ∈ putDescs (upload_file_parts env fs ct data).1,
      (d.isLast = true ↔ d.partNumber = T)) := by
  have htr : (upload_file_parts env fs ct data).1 =
      chunkEvents ct T 1 T fs.content := by
    rw [upload_file_parts_eq env fs ct data T htp,
      loop_trace_allGood env ct T hg T 1 fs.content [], ← hT, Nat.min_self]
  refine ⟨?_, ?_, ?_, ?_⟩
  · rw [htr, chunkEvents_map_partNumber]
  · rw [htr, chunkEvents_map_byteLen, chunkLensN_sum]
    have hle : fs.content.length ≤ T * CHUNK_SIZE := by
      rw [hT]
      unfold numChunks CHUNK_SIZE
      omega
    omega
  · intro hS
    rw [htr, chunkEvents_map_byteLen,
      chunkLensN_closed_form T fs.content.length hT hS, hT,
      last_chunk_len fs.content.length hS]
  · intro d hd
    rw [htr] at hd
    exact chunkEvents_isLast ct T T 1 fs.content d hd

/-- C3 witness: a concrete three-byte source with totalParts = 1 produces
one request of three bytes, numbered 1, flagged as last. -/
theorem c3_witness :
    allGood envC3w ∧ 1 = numChunks fsC3w.content.length ∧
      (((putDescs (upload_file_parts envC3w fsC3w "ctok" (okCreateResp 1)).1).map
          PutDesc.partNumber = List.range' 1 1) ∧
        (((putDescs (upload_file_parts envC3w fsC3w "ctok" (okCreateResp 1)).1).map
          PutDesc.byteLen).sum = fsC3w.content.length) ∧
        (1 ≤ fsC3w.content.length →
          (putDescs (upload_file_parts envC3w fsC3w "ctok" (okCreateResp 1)).1).map
            PutDesc.byteLen = List.replicate (1 - 1) CHUNK_SIZE ++
              [if fsC3w.content.length % CHUNK_SIZE = 0 then CHUNK_SIZE
               else fsC3w.content.length % CHUNK_SIZE]) ∧
        (∀ d ∈ putDescs (upload_file_parts envC3w fsC3w "ctok" (okCreateResp 1)).1,
          (d.isLast = true ↔ d.partNumber = 1))) := by
  have hg : allGood envC3w := by
    intro pn
    exact ⟨goodPartResp pn, rfl, rfl, rfl, rfl, rfl, 10, rfl, by decide⟩
  exact ⟨hg, by decide,
    c3_chunking envC3w fsC3w "ctok" (okCreateResp 1) 1 rfl hg (by decide)⟩

theorem phase_create (cfg : Config) (env : Env) (id : String) (fsz : Nat) (mt : String) :
    PhaseTokensOK cfg env (Event.create id fsz mt (generate_backend_jwt cfg "create")) := rfl

theorem phase_complete (cfg : Config) (env : Env) (uid fid : String)
    (ps : List PartPair) :
    PhaseTokensOK cfg env
      (Event.complete uid fid ps (generate_backend_jwt cfg "complete")) := rfl

theorem phase_abort (cfg : Config) (env : Env) (uid fid : String) :
    PhaseTokensOK cfg env (Event.abort uid fid (generate_backend_jwt cfg "abort")) := rfl

theorem phase_put (cfg : Config) (env : Env) (pn : Nat) (il : Bool) (bs : List Nat)
    (data : CreateResp) (ct : String)
    (hcr : env.createResp = HttpResult.ok data) (hct : data.clientToken = some ct) :
    PhaseTokensOK cfg env (Event.putPart pn il bs (Token.client ct)) :=
  ⟨data, ct, hcr, hct, rfl⟩

theorem upload_inner_events_phase (cfg : Config) (env : Env) (fs : FileSys)
    (nm ct uid : String) (data : CreateResp)
    (hcr : env.createResp = HttpResult.ok data) (hct : data.clientToken = some ct) :
    ∀ ev ∈ (upload_inner cfg env fs nm ct uid data).1, PhaseTokensOK cfg env ev := by
  intro ev hev
  cases hp : (upload_file_parts env fs ct data).2 with
  | error e =>
    rw [upload_inner_parts_error cfg env fs nm ct uid data e hp] at hev
    obtain ⟨pn, il, bs, rfl⟩ := upload_file_parts_events_shape env fs ct data ev hev
    exact phase_put cfg env pn il bs data ct hcr hct
  | ok parts =>
    rw [upload_inner_parts_ok_fst cfg env fs nm ct uid data parts hp] at hev
    rcases List.mem_append.mp hev with h | h
    · obtain ⟨pn, il, bs, rfl⟩ := upload_file_parts_events_shape env fs ct data ev h
      exact phase_put cfg env pn il bs data ct hcr hct
    · rw [List.mem_singleton] at h
      rw [h]
      exact phase_complete cfg env uid nm parts

/-- C7: every request carries a token scoped to its own phase: the create,
complete and abort requests each carry the backend token freshly minted
for exactly their own action, and every putPart request carries the
client token returned by the create response — hence never a backend
token. -/
theorem c7_phase_scoped_tokens (cfg : Config) (env : Env) (fs : FileSys) (p nm : String) :
    ∀ ev ∈ (upload_file cfg env fs p nm).trace, PhaseTokensOK cfg env ev := by
  intro ev hev
  rw [upload_file_trace] at hev
  by_cases hfe : fs.fileExists = true
  · cases hcr : env.createResp with
    | fail m =>
      rw [upload_core_create_fail cfg env fs p nm m hfe hcr] at hev
      rw [List.mem_singleton] at hev
      rw [hev]
      exact phase_create cfg env nm fs.size (fs.mimeGuess.getD "application/octet-stream")
    | ok data =>
      by_cases hsu : data.success = false
      · rw [upload_core_create_rejected cfg env fs p nm data hfe hcr hsu] at hev
        rw [List.mem_singleton] at hev
        rw [hev]
        exact phase_create cfg env nm fs.size (fs.mimeGuess.getD "application/octet-stream")
      · have hsu2 : data.success = true := by
          revert hsu
          cases data.success <;> simp
        cases hui : data.uploadId with
        | none =>
          rw [upload_core_missing_uploadId cfg env fs p nm data hfe hcr hsu2 hui] at hev
          rw [List.mem_singleton] at hev
          rw [hev]
          exact phase_create cfg env nm fs.size
            (fs.mimeGuess.getD "application/octet-stream")
        | some uid =>
          cases htp : data.totalParts with
          | none =>
            rw [upload_core_missing_totalParts cfg env fs p nm data uid
              hfe hcr hsu2 hui htp] at hev
            rw [List.mem_singleton] at hev
            rw [hev]
            exact phase_create cfg env nm fs.size
              (fs.mimeGuess.getD "application/octet-stream")
          | some T =>
            cases hct : data.clientToken with
            | none =>
              rw [upload_core_missing_clientToken cfg env fs p nm data uid T
                hfe hcr hsu2 hui htp hct] at hev
              rw [List.mem_singleton] at hev
              rw [hev]
              exact phase_create cfg env nm fs.size
                (fs.mimeGuess.getD "application/octet-stream")
            | some ct =>
              cases hinner : (upload_inner cfg env fs nm ct uid data).2 with
              | ok url =>
                rw [upload_core_inner_ok cfg env fs p nm data uid ct T url
                  hfe hcr hsu2 hui hct htp hinner] at hev
                rcases List.mem_cons.mp hev with h | h
                · rw [h]
                  exact phase_create cfg env nm fs.size
                    (fs.mimeGuess.getD "application/octet-stream")
                · exact upload_inner_events_phase cfg env fs nm ct uid data hcr hct ev h
              | error e =>
                rw [upload_core_inner_error cfg env fs p nm data uid ct T e
                  hfe hcr hsu2 hui hct htp hinner] at hev
                rcases List.mem_cons.mp hev with h | h
                · rw [h]
                  exact phase_create cfg env nm fs.size
                    (fs.mimeGuess.getD "application/octet-stream")
                · rcases List.mem_append.mp h with h2 | h2
                  · exact upload_inner_events_phase cfg env fs nm ct uid data hcr hct ev h2
                  · rw [abort_upload_fst, List.mem_singleton] at h2
                    rw [h2]
                    exact phase_abort cfg env uid nm
  · have hfe2 : fs.fileExists = false := by
      revert hfe
      cases fs.fileExists <;> simp
    have hcore : upload_core cfg env fs p nm =
        ([], [], Except.error (Exc.uploadError ("File not found: " ++ p))) := by
      simp [upload_core, get_file_info, hfe2]
    rw [hcore] at hev
    exact absurd hev (List.not_mem_nil ev)

/-- C7 witness: in a concrete run the create request is in the trace and
carries the backend token minted for the create action. -/
theorem c7_witness :
    Event.create "r" fsOne.size (fsOne.mimeGuess.getD "application/octet-stream")
        (generate_backend_jwt cfgEx "create") ∈
      (upload_file cfgEx envC7w fsOne "f" "r").trace ∧
    PhaseTokensOK cfgEx envC7w
      (Event.create "r" fsOne.size (fsOne.mimeGuess.getD "application/octet-stream")
        (generate_backend_jwt cfgEx "create")) :=
  ⟨by decide, c7_phase_scoped_tokens cfgEx envC7w fsOne "f" "r" _ (by decide)⟩
